import Mathlib

/-!
Verification of the trade proposal lifecycle of the AI_COUNCIL_BETA repository.

The definitions below are shallow embeddings of the Python source:
  - `MultisigWallet` (ai_agent.py): `propose_transaction`,
    `vote_on_transactions`, `mark_transaction_processed` operate on the
    in-memory list `pending_transactions`; the ledger is modelled as a
    `List Proposal` and each method as a pure function from ledger to ledger.
  - `AgentGroup.propose_trade` (ai_agent.py): parses an agent's trade
    directive string; Python's `float()` parsing is passed in as an oracle
    `parseFloat` (the file also provides a concrete decimal parser
    `parseDecimal` agreeing with `float()` on plain decimal literals, used
    to instantiate the oracle at concrete inputs).
  - `execute_trade` (evm_utils.py): the quote/minimum-out stage, with the
    steps following the quote (approval, build, sign, submit) abstracted as
    a continuation so that "no transaction submitted" is expressible as
    independence from that continuation.  Python float arithmetic is
    modelled over `ℚ`, and Python's `int()` truncation as `pyInt`.
  - `execute_jupiter_swap` (solana_utils.py): the control flow around the
    blockhash fetch, signing and the aggregator's /execute POST, with the
    external calls abstracted as oracles; the response interpretation is
    `interpretExecuteResponse`.
  - The SafetyGate of the specification (spec §4.1) is not part of the
    source files available here; it is modelled from the spec (see
    `SafetyGate_evaluate`).

Nondeterministic identifiers (Python's `tx_{time}_{random}`) are passed as
explicit `newId` arguments; LLM vote responses are an oracle
`voteFn : String → TxData → String`.
-/

/-- Transaction data attached to a proposal, mirroring the two dictionary
shapes built by `AgentGroup.propose_trade` (ai_agent.py): the on-chain
5-token form and the legacy simulated BUY/SELL form.  Python float amounts
are modelled as rationals. -/
inductive TxData where
  | trade (input_token output_token : String) (input_amount : ℚ)
      (network_name dex_name : String)
  | simulated (action : String) (amount : ℚ) (crypto : String)
deriving Repr, DecidableEq

/-- A vote record `{"agent": ..., "vote": ...}` appended by
`MultisigWallet.vote_on_transactions`. -/
structure Vote where
  agent : String
  vote : String
deriving Repr, DecidableEq

/-- A proposal wrapper as built by `MultisigWallet.propose_transaction`:
`{"id", "transaction", "votes", "status"}` plus the `tx_hash` and
`error_message` keys that `mark_transaction_processed` may later add
(absent keys modelled as `none`). -/
structure Proposal where
  id : String
  transaction : TxData
  votes : List Vote
  status : String
  tx_hash : Option String
  error_message : Option String
deriving Repr, DecidableEq

/-- The `pending_transactions` list of a `MultisigWallet`. -/
abbrev Ledger := List Proposal

/-- Python truthiness of an optional string: `None` and `""` are falsy. -/
def optTruthy : Option String → Bool
  | none => false
  | some s => !s.isEmpty

/-- Embedding of `MultisigWallet.propose_transaction` (ai_agent.py lines 202-215):
appends a new proposal with empty votes and status `"pending"`.  The
freshly generated id (`tx_{time}_{random}` in Python) is an argument. -/
def propose_transaction (st : Ledger) (newId : String) (txd : TxData) : Ledger :=
  st ++ [{ id := newId, transaction := txd, votes := [], status := "pending",
           tx_hash := none, error_message := none }]

/-- Embedding of `MultisigWallet.mark_transaction_processed` (ai_agent.py lines 251-258):
walks the list, updates the first proposal whose id matches (`break`),
setting `status` unconditionally and `tx_hash`/`error_message` only when
the corresponding argument is truthy. -/
def mark_transaction_processed (st : Ledger) (txId finalStatus : String)
    (txHash errMsg : Option String) : Ledger :=
  match st with
  | [] => []
  | p :: rest =>
    if p.id = txId then
      { p with status := finalStatus,
               tx_hash := if optTruthy txHash then txHash else p.tx_hash,
               error_message := if optTruthy errMsg then errMsg else p.error_message } :: rest
    else
      p :: mark_transaction_processed rest txId finalStatus txHash errMsg

/-- Python `str.upper()` (the votes and trade tokens the system handles
are ASCII, where `Char.toUpper` agrees with Python). -/
def pyUpper (s : String) : String := String.mk (s.data.map Char.toUpper)

/-- Python `str.lower()` (ASCII, as with `pyUpper`). -/
def pyLower (s : String) : String := String.mk (s.data.map Char.toLower)

/-- Python `str.strip()` with no argument: remove leading and trailing
whitespace. -/
def pyStrip (s : String) : String :=
  String.mk (((s.data.dropWhile Char.isWhitespace).reverse.dropWhile Char.isWhitespace).reverse)

/-- Python `str.split()` with no argument: split on runs of whitespace,
dropping empty pieces (`trade_details_string.strip().split()` in
`propose_trade`; the preceding `strip` is subsumed). -/
def pySplit (s : String) : List String :=
  ((s.data.splitOnP Char.isWhitespace).filter (fun t => !t.isEmpty)).map (fun cs => String.mk cs)

/-- Digits of a string as a natural number; `none` when empty or a
non-digit occurs. -/
def parseNatDigits (cs : List Char) : Option ℕ :=
  match cs with
  | [] => none
  | _ =>
    cs.foldl
      (fun acc c =>
        match acc with
        | none => none
        | some n => if c.isDigit then some (n * 10 + (c.toNat - '0'.toNat)) else none)
      (some 0)

/-- A concrete model of Python's `float()` on plain decimal literals
(optional sign, digits, optional fractional part).  It agrees with
Python's `float()` on every such literal; the exotic inputs `float()`
additionally accepts (exponents, `inf`, `nan`, surrounding whitespace)
are outside what the claims exercise, so they are left unparsed. -/
def parseDecimal (s : String) : Option ℚ :=
  let signAndBody : Bool × List Char :=
    match s.data with
    | '-' :: rest => (true, rest)
    | '+' :: rest => (false, rest)
    | cs => (false, cs)
  let body := signAndBody.2
  let mag : Option ℚ :=
    match body.splitOn '.' with
    | [intPart] =>
      (parseNatDigits intPart).map (fun n => (n : ℚ))
    | [intPart, fracPart] =>
      if intPart.isEmpty && fracPart.isEmpty then none
      else
        let ip : Option ℕ := if intPart.isEmpty then some 0 else parseNatDigits intPart
        let fp : Option ℕ := if fracPart.isEmpty then some 0 else parseNatDigits fracPart
        match ip, fp with
        | some i, some f => some ((i : ℚ) + (f : ℚ) / ((10 : ℚ) ^ fracPart.length))
        | _, _ => none
    | _ => none
  mag.map (fun q => if signAndBody.1 then -q else q)

/-- Embedding of `AgentGroup.propose_trade` (ai_agent.py lines 468-508): tokenizes the
directive; a 5-token directive becomes an on-chain `TRADE` proposal unless
the amount fails to parse (`ValueError` caught) or is `<= 1e-18` (the
float literal modelled as the exact rational `1/10^18`); a
3-token directive whose first token upper-cases to BUY or SELL becomes a
legacy simulated proposal unless the amount fails to parse; anything else
is logged and dropped.  `parseFloat` is the oracle for Python's `float()`
and `newId` the fresh proposal id. -/
def propose_trade (parseFloat : String → Option ℚ) (st : Ledger) (newId : String)
    (tradeDetails : String) : Ledger :=
  match pySplit tradeDetails with
  | [input_token, output_token, input_amount_str, network_name, dex_name] =>
    match parseFloat input_amount_str with
    | none => st
    | some input_amount =>
      if input_amount ≤ 1 / 10 ^ 18 then st
      else
        propose_transaction st newId
          (TxData.trade (pyUpper input_token) (pyUpper output_token) input_amount
            (pyLower network_name) (pyLower dex_name))
  | [action, amount_str, crypto_symbol] =>
    if pyUpper action = "BUY" ∨ pyUpper action = "SELL" then
      match parseFloat amount_str with
      | none => st
      | some amount =>
        propose_transaction st newId
          (TxData.simulated (pyUpper action) amount (pyUpper crypto_symbol))
    else st
  | _ => st

/-- Python `vote_response.strip().upper()` applied to a vote text before
the `startswith` classification in `vote_on_transactions`. -/
def pyNormVote (s : String) : String := pyUpper (pyStrip s)

/-- Python `str.startswith`, expressed on the character lists so that the
classification is easy to reason about. -/
def pyStartsWith (s pre : String) : Bool := pre.data.isPrefixOf s.data

/-- Count of votes classified APPROVE by `vote_on_transactions`:
`vote["vote"].strip().upper().startswith("APPROVE")`. -/
def countApprove (vs : List Vote) : ℕ :=
  (vs.filter (fun v => pyStartsWith (pyNormVote v.vote) "APPROVE")).length

/-- Count of votes classified REJECT by `vote_on_transactions`:
`vote["vote"].strip().upper().startswith("REJECT")`. -/
def countReject (vs : List Vote) : ℕ :=
  (vs.filter (fun v => pyStartsWith (pyNormVote v.vote) "REJECT")).length

/-- The vote-append loop of `vote_on_transactions` (ai_agent.py lines
225-231): the set of already-voted names is computed once, and each agent
whose name is not in that snapshot appends a vote obtained from `voteFn`
(the LLM call `agent.vote_on_transaction(transaction, context)`). -/
def collectRoundVotes (agents : List String) (voteFn : String → TxData → String)
    (tx : Proposal) : List Vote :=
  tx.votes ++
    (agents.filter (fun a => !(tx.votes.any (fun v => v.agent = a)))).map
      (fun a => { agent := a, vote := voteFn a tx.transaction })

/-- The status recomputation of `vote_on_transactions` (ai_agent.py lines
233-244): approved when approvals reach the threshold; otherwise rejected
when rejections exceed `num_agents - required_signatures` (as Python int
arithmetic, i.e. over ℤ) or every agent has voted; otherwise the proposal
stays pending. -/
def voteStatus (numAgents required : ℕ) (vs : List Vote) : String :=
  if required ≤ countApprove vs then "approved"
  else if (numAgents : ℤ) - (required : ℤ) < (countReject vs : ℤ) ∨ vs.length = numAgents then
    "rejected"
  else "pending"

/-- Per-proposal body of the `vote_on_transactions` loop: proposals not in
`"pending"` status are untouched; a pending proposal gets this round's
votes appended and its status recomputed. -/
def voteStep (agents : List String) (voteFn : String → TxData → String)
    (required : ℕ) (tx : Proposal) : Proposal :=
  if tx.status = "pending" then
    let vs := collectRoundVotes agents voteFn tx
    { tx with votes := vs, status := voteStatus agents.length required vs }
  else tx

/-- Embedding of `MultisigWallet.vote_on_transactions` (ai_agent.py lines 218-244) over
the whole ledger. -/
def vote_on_transactions (agents : List String) (voteFn : String → TxData → String)
    (required : ℕ) (st : Ledger) : Ledger :=
  st.map (voteStep agents voteFn required)

/-- Python `int()` applied to a rational value: truncation toward zero. -/
def pyInt (q : ℚ) : ℤ := if 0 ≤ q then ⌊q⌋ else ⌈q⌉

/-- The `(tx_hash, success, message)` triple returned by `execute_trade`
(evm_utils.py). -/
structure TradeResult where
  tx_hash : Option String
  success : Bool
  message : String
deriving Repr, DecidableEq

/-- Embedding of `min_out_wei = int(estimated_out_wei * (1 - slippage_tolerance))` from
`execute_trade` (evm_utils.py line 455), with the float arithmetic
modelled over ℚ (exact at the values the claims exercise). -/
def evmMinOut (estimatedOutWei : ℕ) (slippageTolerance : ℚ) : ℤ :=
  pyInt ((estimatedOutWei : ℚ) * (1 - slippageTolerance))

/-- The quote stage of `execute_trade` (evm_utils.py lines 451-459) and
everything after it.  `quotedOut` is the last entry of the router's
`getAmountsOut` result, `none` when that call raised (the `except` arm).
`submit` is the continuation holding every step that follows the quote
(token approval, building, signing, broadcasting, receipt wait); at the
point the quote stage runs, `tx_hash_str` is still `None`, so both failure
returns carry no hash.  The quote-failure message's dynamic tail (path and
exception text in the Python f-string) is not modelled. -/
def execute_trade (quotedOut : Option ℕ) (slippageTolerance : ℚ)
    (submit : ℤ → TradeResult) : TradeResult :=
  match quotedOut with
  | none =>
    { tx_hash := none, success := false,
      message := "Could not estimate output (getAmountsOut failed)." }
  | some estimatedOutWei =>
    let minOutWei := evmMinOut estimatedOutWei slippageTolerance
    if minOutWei ≤ 0 then
      { tx_hash := none, success := false,
        message := "Estimated minimum output is zero or less. Check liquidity or input amount." }
    else submit minOutWei

/-- The fields of the Jupiter /order quote that `execute_jupiter_swap`
(solana_utils.py) reads: the base64 transaction blob (`none` models a
missing key, `some ""` an empty value — both falsy to `quote.get`) and the
correlation id. -/
structure SolanaJupiterQuote where
  transaction_b64 : Option String
  request_id : String
deriving Repr, DecidableEq

/-- The `SolanaSwapResult` TypedDict of solana_utils.py (the raw response
payload field is omitted). -/
structure SolanaSwapResult where
  success : Bool
  signature : Option String
  error_message : Option String
  input_amount_processed : Option ℤ
  output_amount_processed : Option ℤ
deriving Repr, DecidableEq

/-- The fields of a Jupiter /execute response that `execute_jupiter_swap`
reads.  `error_field` models `exec_data.get("error")` with a non-string
payload already rendered to its JSON text (the `json.dumps` arm); the
amount results are modelled as the integers Python's `int()` produces. -/
structure ExecuteResponse where
  status : Option String
  signature : Option String
  error_field : Option String
  code : Option ℤ
  inputAmountResult : Option ℤ
  outputAmountResult : Option ℤ
deriving Repr, DecidableEq

/-- Python `int(d.get(k, 0)) if d.get(k) else None`: a missing or falsy
(zero) amount becomes `None`. -/
def truthyAmount : Option ℤ → Option ℤ
  | none => none
  | some v => if v = 0 then none else some v

/-- The response interpretation of `execute_jupiter_swap` (solana_utils.py
lines 319-328): only a status exactly equal to `"Success"` yields a
successful result; any other response is a failure that keeps the
response's signature. -/
def interpretExecuteResponse (d : ExecuteResponse) : SolanaSwapResult :=
  if d.status = some "Success" then
    { success := true, signature := d.signature, error_message := none,
      input_amount_processed := truthyAmount d.inputAmountResult,
      output_amount_processed := truthyAmount d.outputAmountResult }
  else
    { success := false, signature := d.signature,
      error_message := some ("Jupiter swap execution failed: "
        ++ (d.error_field.getD "Unknown error from Jupiter /execute")
        ++ " (Code: " ++ (match d.code with | none => "None" | some c => toString c) ++ ")"),
      input_amount_processed := none, output_amount_processed := none }

/-- A failure `SolanaSwapResult` with no signature, as built by the guard
and error arms of `execute_jupiter_swap`. -/
def solanaFail (msg : String) : SolanaSwapResult :=
  { success := false, signature := none, error_message := some msg,
    input_amount_processed := none, output_amount_processed := none }

/-- Embedding of `execute_jupiter_swap` (solana_utils.py lines 279-337).  The external
effects are oracles: `fetchBlockhash` models
`solana_client.get_latest_blockhash` (`Except.error` an exception,
`.ok none` a response without a blockhash, `.ok (some bh)` the fetched
hash), and `execCall blob bh` models decoding/signing the quote's blob
against `bh` and POSTing `{requestId, signedTransaction}` to /execute
(`Except.error` an exception at any of those steps).  The empty-blob guard
runs first and returns the "No transaction string in quote." failure
before any oracle is consulted. -/
def execute_jupiter_swap (quote : SolanaJupiterQuote)
    (fetchBlockhash : Unit → Except String (Option String))
    (execCall : String → String → Except String ExecuteResponse) : SolanaSwapResult :=
  if !(optTruthy quote.transaction_b64) then
    solanaFail "No transaction string in quote."
  else
    match fetchBlockhash () with
    | Except.error e => solanaFail ("Exception: " ++ e)
    | Except.ok none => solanaFail "Failed to get recent blockhash."
    | Except.ok (some bh) =>
      match execCall (quote.transaction_b64.getD "") bh with
      | Except.error e => solanaFail ("Exception: " ++ e)
      | Except.ok d => interpretExecuteResponse d

/-- Modelled from the spec: the per-asset risk summary consumed by the
SafetyGate (spec §3 RiskSummary and §6 risk-analysis collaborator), the
output of the risk-analysis collaborator whose integration into the
proposal path is not among the source files here (token_analyzer.py
produces such summaries but nothing under src/ consumes them). -/
structure RiskSummary where
  is_high_risk : Bool
  buy_tax : Option ℚ
  sell_tax : Option ℚ
  transfer_tax : Option ℚ
  warnings : List String
deriving Repr, DecidableEq

/-- SafetyGate verdict (spec §4.1). -/
inductive GateDecision where
  | Allow
  | Deny (reason : String)
deriving Repr, DecidableEq

/-- Tax check of spec §4.1: a present tax fraction strictly above the
configured threshold (default 0.20) is an offence. -/
def taxExceeds (threshold : ℚ) : Option ℚ → Bool
  | none => false
  | some t => threshold < t

/-- Modelled from the spec: resolution of the output asset "to a canonical
address (symbol lookup against a per-network registry, or pass-through if
already address-shaped)" (spec §4.1); pass-through is the registry-miss
case. -/
def resolveAsset (registry : String → Option String) (asset : String) : String :=
  (registry asset).getD asset

/-- Modelled from the spec: `SafetyGate.evaluate` (spec §4.1), absent from
the source files here.  Allow-listed addresses pass without consulting
risk data; a missing summary allows with a warning surfaced by the caller;
a summary flagging honeypot/major-risk denies, then excessive
buy/sell/transfer tax, then a warning string tagged critical (the tag used
by token_analyzer.py's warning texts is the `CRITICAL` prefix). -/
def SafetyGate_evaluate (allowList : List String)
    (riskLookup : String → Option RiskSummary) (taxThreshold : ℚ)
    (addr : String) : GateDecision :=
  if addr ∈ allowList then GateDecision.Allow
  else
    match riskLookup addr with
    | none => GateDecision.Allow
    | some r =>
      if r.is_high_risk then GateDecision.Deny "risk summary flags honeypot/major-risk"
      else if taxExceeds taxThreshold r.buy_tax then GateDecision.Deny "buy tax exceeds threshold"
      else if taxExceeds taxThreshold r.sell_tax then GateDecision.Deny "sell tax exceeds threshold"
      else if taxExceeds taxThreshold r.transfer_tax then GateDecision.Deny "transfer tax exceeds threshold"
      else if r.warnings.any (fun w => pyStartsWith w "CRITICAL") then
        GateDecision.Deny "critical warning"
      else GateDecision.Allow

/-- Modelled from the spec: the Orchestrator's proposal path
"SafetyGate → Ledger.propose" (spec §2 and §4.6) for a well-formed
on-chain trade directive, composed with the source's
`propose_transaction`: a Deny returns the ledger untouched, an Allow
appends the pending proposal exactly as `AgentGroup.propose_trade`
builds it. -/
def gatedPropose (allowList : List String)
    (riskLookup : String → Option RiskSummary) (taxThreshold : ℚ)
    (registry : String → Option String) (st : Ledger) (newId : String)
    (input_token output_token : String) (input_amount : ℚ)
    (network_name dex_name : String) : Ledger :=
  match SafetyGate_evaluate allowList riskLookup taxThreshold
      (resolveAsset registry output_token) with
  | GateDecision.Deny _ => st
  | GateDecision.Allow =>
    propose_transaction st newId
      (TxData.trade (pyUpper input_token) (pyUpper output_token) input_amount
        (pyLower network_name) (pyLower dex_name))

/-! Helper lemmas shared by the claim theorems. -/

/-- Sample transaction data used to instantiate witnesses. -/
def sampleTx : TxData := TxData.trade "WETH" "USDC" (3 / 2) "ethereum" "uniswap_v2"

/-- Sample pending proposal used to instantiate witnesses. -/
def sampleProposal : Proposal :=
  { id := "tx_1", transaction := sampleTx, votes := [], status := "pending",
    tx_hash := none, error_message := none }

/-- A second sample proposal, already terminal, used to instantiate
witnesses. -/
def sampleProposalB : Proposal :=
  { id := "tx_2", transaction := TxData.simulated "BUY" 5 "BTC",
    votes := [{ agent := "A", vote := "APPROVE fine" }], status := "approved",
    tx_hash := none, error_message := none }

/-- On a ledger without the requested id, `mark_transaction_processed`
is the identity. -/
theorem mark_processed_of_no_match (st : Ledger) (txId finalStatus : String)
    (txHash errMsg : Option String) (h : ∀ p ∈ st, p.id ≠ txId) :
    mark_transaction_processed st txId finalStatus txHash errMsg = st := by
  induction st with
  | nil => rfl
  | cons p rest ih =>
    have hp : p.id ≠ txId := h p (List.mem_cons_self _ _)
    simp only [mark_transaction_processed, if_neg hp]
    exact congrArg (p :: ·) (ih (fun q hq => h q (List.mem_cons_of_mem _ hq)))

/-- On a ledger whose first id match is `p`, `mark_transaction_processed`
rewrites exactly that occurrence. -/
theorem mark_processed_of_first_match (pre : Ledger) (p : Proposal) (suf : Ledger)
    (txId finalStatus : String) (txHash errMsg : Option String)
    (hpre : ∀ q ∈ pre, q.id ≠ txId) (hp : p.id = txId) :
    mark_transaction_processed (pre ++ p :: suf) txId finalStatus txHash errMsg =
      pre ++ { p with status := finalStatus,
                      tx_hash := if optTruthy txHash then txHash else p.tx_hash,
                      error_message := if optTruthy errMsg then errMsg else p.error_message } :: suf := by
  induction pre with
  | nil => simp only [List.nil_append, mark_transaction_processed, if_pos hp]
  | cons q qs ih =>
    have hq : q.id ≠ txId := hpre q (List.mem_cons_self _ _)
    simp only [List.cons_append, mark_transaction_processed, if_neg hq]
    exact congrArg (q :: ·) (ih (fun r hr => hpre r (List.mem_cons_of_mem _ hr)))

/-- C10: for every transaction data, `propose_transaction` appends exactly
one new proposal to the ledger, that proposal has status `"pending"` and
an empty vote list, and every pre-existing proposal is left unmodified:
the result is the old list followed by the one new entry, so the list
grows by exactly one. -/
theorem propose_transaction_appends_pending (st : Ledger) (newId : String) (txd : TxData) :
    propose_transaction st newId txd =
      st ++ [{ id := newId, transaction := txd, votes := [], status := "pending",
               tx_hash := none, error_message := none }] ∧
    (propose_transaction st newId txd).length = st.length + 1 := by
  refine ⟨rfl, ?_⟩
  simp [propose_transaction]

/-- C9: `mark_transaction_processed` updates at most the first proposal
whose id matches: when no proposal carries the id the ledger is returned
unchanged and no error is signalled (the function is total), and when the
first match is `p` the result replaces exactly that occurrence with a copy
whose `status` is the new status, whose `tx_hash` and `error_message` are
overwritten only when the corresponding argument is truthy, and whose
`id`, `transaction` and `votes` fields are untouched, all other proposals
being returned as they were. -/
theorem mark_processed_frame (st : Ledger) (txId finalStatus : String)
    (txHash errMsg : Option String) :
    ((∀ p ∈ st, p.id ≠ txId) →
      mark_transaction_processed st txId finalStatus txHash errMsg = st) ∧
    (∀ pre p suf, st = pre ++ p :: suf → (∀ q ∈ pre, q.id ≠ txId) → p.id = txId →
      mark_transaction_processed st txId finalStatus txHash errMsg =
        pre ++ { p with status := finalStatus,
                        tx_hash := if optTruthy txHash then txHash else p.tx_hash,
                        error_message := if optTruthy errMsg then errMsg else p.error_message } :: suf) := by
  refine ⟨mark_processed_of_no_match st txId finalStatus txHash errMsg, ?_⟩
  intro pre p suf hst hpre hp
  rw [hst]
  exact mark_processed_of_first_match pre p suf txId finalStatus txHash errMsg hpre hp

/-- Witness for C9: on a concrete two-proposal ledger, the call with an
absent id is the identity, and the call matching the second proposal
rewrites exactly that entry. -/
theorem mark_processed_frame_witness :
    mark_transaction_processed [sampleProposal, sampleProposalB] "zzz" "failed_x" none none =
      [sampleProposal, sampleProposalB] ∧
    mark_transaction_processed [sampleProposal, sampleProposalB] "tx_2"
        "executed_onchain_success" (some "0xabc") none =
      [sampleProposal,
       { sampleProposalB with status := "executed_onchain_success", tx_hash := some "0xabc" }] := by
  constructor
  · exact (mark_processed_frame [sampleProposal, sampleProposalB] "zzz" "failed_x"
      none none).1 (by decide)
  · have h := (mark_processed_frame [sampleProposal, sampleProposalB] "tx_2"
      "executed_onchain_success" (some "0xabc") none).2 [sampleProposal] sampleProposalB []
      rfl (by decide) rfl
    simpa using h

/-- Counterexample for C3: on a concrete one-proposal ledger, a first
terminal write records status `"failed_x"` with hash `"0xaaa"`; a second
call for the same proposal id then yields status `"failed_y"` with error
text `"boom"` — the first terminal status is not left intact and no error
is signalled (the write is silent): `mark_transaction_processed`
unconditionally overwrites the status of the first id match, terminal or
not. -/
theorem mark_processed_second_write_overwrites_cex :
    mark_transaction_processed
      (mark_transaction_processed [sampleProposal] "tx_1" "failed_x" (some "0xaaa") none)
      "tx_1" "failed_y" none (some "boom") =
      [{ sampleProposal with status := "failed_y", tx_hash := some "0xaaa",
                             error_message := some "boom" }] ∧
    "failed_y" ≠ "failed_x" := by
  constructor
  · rfl
  · decide

/-- C3 amended: a second call to `mark_transaction_processed` on a
proposal already carrying a terminal status silently overwrites the first
terminal write: the status becomes the second call's status
unconditionally, and the settlement handle and error text become the
second call's values whenever those arguments are truthy (otherwise the
previously stored values persist); no error is signalled on the second
call. -/
theorem mark_processed_second_write_overwrites (p : Proposal) (rest : Ledger)
    (s1 s2 : String) (h1 e1 h2 e2 : Option String) :
    mark_transaction_processed
        (mark_transaction_processed (p :: rest) p.id s1 h1 e1) p.id s2 h2 e2 =
      { p with status := s2,
               tx_hash := if optTruthy h2 then h2 else if optTruthy h1 then h1 else p.tx_hash,
               error_message :=
                 if optTruthy e2 then e2 else if optTruthy e1 then e1 else p.error_message } :: rest := by
  simp only [mark_transaction_processed, if_pos rfl]
  by_cases hh1 : optTruthy h1 = true <;> by_cases hh2 : optTruthy h2 = true <;>
    by_cases he1 : optTruthy e1 = true <;> by_cases he2 : optTruthy e2 = true <;>
      simp [hh1, hh2, he1, he2]

/-- C1 (SafetyGate modelled from the spec): when the risk summary of the
trade's resolved output asset flags it high-risk (honeypot/major-risk) and
that address is not on the chain's safe-asset allow-list, the proposal
path `SafetyGate → Ledger.propose` leaves the ledger unchanged — the
denial happens at proposal time, before `propose_transaction` runs, so no
pending proposal for the trade ever enters the ledger. -/
theorem gate_denies_high_risk_before_propose
    (allowList : List String) (riskLookup : String → Option RiskSummary)
    (taxThreshold : ℚ) (registry : String → Option String)
    (st : Ledger) (newId : String)
    (input_token output_token : String) (input_amount : ℚ)
    (network_name dex_name : String) (r : RiskSummary)
    (hr : riskLookup (resolveAsset registry output_token) = some r)
    (hhigh : r.is_high_risk = true)
    (hna : resolveAsset registry output_token ∉ allowList) :
    gatedPropose allowList riskLookup taxThreshold registry st newId
        input_token output_token input_amount network_name dex_name = st ∧
    ∀ p ∈ gatedPropose allowList riskLookup taxThreshold registry st newId
        input_token output_token input_amount network_name dex_name, p ∈ st := by
  have hmain : gatedPropose allowList riskLookup taxThreshold registry st newId
      input_token output_token input_amount network_name dex_name = st := by
    simp [gatedPropose, SafetyGate_evaluate, hna, hr, hhigh]
  exact ⟨hmain, fun p hp => hmain ▸ hp⟩

/-- Witness for C1: a concrete scam token resolving to an address whose
risk summary is high-risk and which is absent from the allow-list is
denied; the empty ledger stays empty. -/
theorem gate_denies_high_risk_before_propose_witness :
    gatedPropose ["0xsafe"]
      (fun a => if a = "0xbad" then
          some { is_high_risk := true, buy_tax := none, sell_tax := none,
                 transfer_tax := none, warnings := [] }
        else none)
      (2 / 10) (fun s => if s = "SCAM" then some "0xbad" else none)
      [] "tx_9" "WETH" "SCAM" 1 "ethereum" "uniswap_v2" = [] :=
  (gate_denies_high_risk_before_propose ["0xsafe"]
    (fun a => if a = "0xbad" then
        some { is_high_risk := true, buy_tax := none, sell_tax := none,
               transfer_tax := none, warnings := [] }
      else none)
    (2 / 10) (fun s => if s = "SCAM" then some "0xbad" else none)
    [] "tx_9" "WETH" "SCAM" 1 "ethereum" "uniswap_v2"
    { is_high_risk := true, buy_tax := none, sell_tax := none,
      transfer_tax := none, warnings := [] }
    (by rfl) (by rfl) (by decide)).1

/-- C6: in the EVM executor the minimum acceptable output is the floor of
`quoted_out * (1 - slippage_tolerance)` (for any tolerance at most 1 the
truncation Python's `int()` performs coincides with the floor since the
product is nonnegative); in particular a 1% tolerance on a quoted output
of 1000 units gives exactly 990; and whenever the minimum output computes
to zero or less, or the `getAmountsOut` quote call fails, `execute_trade`
returns a failure carrying no transaction hash whose value does not depend
on the submission continuation — nothing is submitted. -/
theorem evm_min_out_floor_and_gate (estimatedOutWei : ℕ) (slippageTolerance : ℚ)
    (submit : ℤ → TradeResult) (hs : slippageTolerance ≤ 1) :
    evmMinOut estimatedOutWei slippageTolerance =
      ⌊(estimatedOutWei : ℚ) * (1 - slippageTolerance)⌋ ∧
    evmMinOut 1000 (1 / 100) = 990 ∧
    (evmMinOut estimatedOutWei slippageTolerance ≤ 0 →
      execute_trade (some estimatedOutWei) slippageTolerance submit =
        { tx_hash := none, success := false,
          message := "Estimated minimum output is zero or less. Check liquidity or input amount." }) ∧
    execute_trade none slippageTolerance submit =
      { tx_hash := none, success := false,
        message := "Could not estimate output (getAmountsOut failed)." } := by
  refine ⟨?_, by norm_num [evmMinOut, pyInt], ?_, rfl⟩
  · have hnn : 0 ≤ (estimatedOutWei : ℚ) * (1 - slippageTolerance) :=
      mul_nonneg (by positivity) (by linarith)
    simp [evmMinOut, pyInt, hnn]
  · intro h
    simp [execute_trade, h]

/-- Witness for C6: the concrete 1%-on-1000 instance, with a submission
continuation that would report success were it ever reached. -/
theorem evm_min_out_floor_and_gate_witness :
    evmMinOut 1000 (1 / 100) = ⌊(1000 : ℚ) * (1 - 1 / 100)⌋ ∧
    execute_trade (some 0) (1 / 100)
        (fun _ => { tx_hash := some "0xfeed", success := true, message := "sent" }) =
      { tx_hash := none, success := false,
        message := "Estimated minimum output is zero or less. Check liquidity or input amount." } := by
  have h := evm_min_out_floor_and_gate 1000 (1 / 100)
    (fun _ => { tx_hash := some "0xfeed", success := true, message := "sent" }) (by norm_num)
  have h0 := evm_min_out_floor_and_gate 0 (1 / 100)
    (fun _ => { tx_hash := some "0xfeed", success := true, message := "sent" }) (by norm_num)
  exact ⟨h.1, h0.2.2.1 (by norm_num [evmMinOut, pyInt])⟩

/-- C7: a Solana swap quote whose transaction blob field is missing or
empty makes `execute_jupiter_swap` return a failure whose error message is
exactly `"No transaction string in quote."` (the "no transaction" error),
with no signature; and the result does not depend on either the blockhash
oracle or the /execute-call oracle, i.e. no blockhash fetch, no signing
and no call to the aggregator's execute endpoint happens for that quote. -/
theorem jupiter_swap_missing_transaction_fails (quote : SolanaJupiterQuote)
    (fetchBlockhash fetchBlockhash2 : Unit → Except String (Option String))
    (execCall execCall2 : String → String → Except String ExecuteResponse)
    (hblob : optTruthy quote.transaction_b64 = false) :
    execute_jupiter_swap quote fetchBlockhash execCall =
      solanaFail "No transaction string in quote." ∧
    execute_jupiter_swap quote fetchBlockhash execCall =
      execute_jupiter_swap quote fetchBlockhash2 execCall2 := by
  constructor <;> simp [execute_jupiter_swap, hblob]

/-- Witness for C7: a quote with an empty transaction blob fails with the
"no transaction" error even when the oracles would answer. -/
theorem jupiter_swap_missing_transaction_fails_witness :
    execute_jupiter_swap { transaction_b64 := some "", request_id := "rid1" }
      (fun _ => Except.ok (some "bh"))
      (fun _ _ => Except.ok { status := some "Success", signature := some "sig",
                              error_field := none, code := none,
                              inputAmountResult := none, outputAmountResult := none }) =
      solanaFail "No transaction string in quote." :=
  (jupiter_swap_missing_transaction_fails
    { transaction_b64 := some "", request_id := "rid1" }
    (fun _ => Except.ok (some "bh")) (fun _ => Except.error "unused")
    (fun _ _ => Except.ok { status := some "Success", signature := some "sig",
                            error_field := none, code := none,
                            inputAmountResult := none, outputAmountResult := none })
    (fun _ _ => Except.error "unused") (by decide)).1

/-- C8: the interpretation of a response from the aggregator's /execute
endpoint yields `success = true` exactly when the response's status field
equals `"Success"`; in every case the result's signature field is the
response's signature, so a failure (any other status, including a missing
one) preserves a present signature; and `execute_jupiter_swap` run against
an endpoint answering that response (with a nonempty quote blob and an
available blockhash) returns exactly that interpretation. -/
theorem jupiter_execute_status_iff_success (d : ExecuteResponse)
    (quote : SolanaJupiterQuote) (bh : String)
    (hblob : optTruthy quote.transaction_b64 = true) :
    ((interpretExecuteResponse d).success = true ↔ d.status = some "Success") ∧
    (interpretExecuteResponse d).signature = d.signature ∧
    (d.status ≠ some "Success" → (interpretExecuteResponse d).success = false) ∧
    execute_jupiter_swap quote (fun _ => Except.ok (some bh))
        (fun _ _ => Except.ok d) = interpretExecuteResponse d := by
  by_cases hs : d.status = some "Success" <;>
    simp [interpretExecuteResponse, execute_jupiter_swap, hblob, hs]

/-- Witness for C8: a response with status `"Failed"` and a present
signature interprets to a failure that retains the signature. -/
theorem jupiter_execute_status_iff_success_witness :
    (interpretExecuteResponse
      { status := some "Failed", signature := some "sig9", error_field := some "slippage",
        code := some 3, inputAmountResult := none, outputAmountResult := none }).success = false ∧
    (interpretExecuteResponse
      { status := some "Failed", signature := some "sig9", error_field := some "slippage",
        code := some 3, inputAmountResult := none, outputAmountResult := none }).signature =
      some "sig9" := by
  have h := jupiter_execute_status_iff_success
    { status := some "Failed", signature := some "sig9", error_field := some "slippage",
      code := some 3, inputAmountResult := none, outputAmountResult := none }
    { transaction_b64 := some "blob", request_id := "rid2" } "bh" (by decide)
  exact ⟨h.2.2.1 (by decide), h.2.1⟩

/-- A vote text cannot be classified both APPROVE and REJECT: the two
prefixes disagree at their first character. -/
theorem approve_reject_prefix_disjoint (s : String) :
    ¬(pyStartsWith s "APPROVE" = true ∧ pyStartsWith s "REJECT" = true) := by
  rintro ⟨h1, h2⟩
  unfold pyStartsWith at h1 h2
  rw [List.isPrefixOf_iff_prefix] at h1 h2
  obtain ⟨t1, ht1⟩ := h1
  obtain ⟨t2, ht2⟩ := h2
  rw [← ht1] at ht2
  have hh := congrArg List.head? ht2
  simp [String.data] at hh

/-- Filters by two disjoint predicates together keep at most the whole
list. -/
theorem length_filter_add_length_filter_le {α : Type} (p q : α → Bool)
    (hpq : ∀ x, ¬(p x = true ∧ q x = true)) (l : List α) :
    (l.filter p).length + (l.filter q).length ≤ l.length := by
  induction l with
  | nil => simp
  | cons x xs ih =>
    rcases hpx : p x with _ | _ <;> rcases hqx : q x with _ | _
    · simp [List.filter_cons, hpx, hqx]; omega
    · simp [List.filter_cons, hpx, hqx]; omega
    · simp [List.filter_cons, hpx, hqx]; omega
    · exact absurd ⟨hpx, hqx⟩ (hpq x)

/-- APPROVE and REJECT counts together never exceed the number of votes. -/
theorem countApprove_add_countReject_le (vs : List Vote) :
    countApprove vs + countReject vs ≤ vs.length := by
  unfold countApprove countReject
  exact length_filter_add_length_filter_le _ _
    (fun v => approve_reject_prefix_disjoint (pyNormVote v.vote)) vs

/-- Characterization of the status recomputation of
`vote_on_transactions`, for a vote list not exceeding the participant
count. -/
theorem voteStatus_characterization (numAgents required : ℕ) (vs : List Vote)
    (hlen : vs.length ≤ numAgents) :
    (voteStatus numAgents required vs = "approved" ↔ required ≤ countApprove vs) ∧
    (voteStatus numAgents required vs = "rejected" ↔
      ((numAgents : ℤ) - (required : ℤ) < (countReject vs : ℤ) ∨
       (vs.length = numAgents ∧ countApprove vs < required))) ∧
    (voteStatus numAgents required vs = "pending" ↔
      (countApprove vs < required ∧
       (countReject vs : ℤ) ≤ (numAgents : ℤ) - (required : ℤ) ∧
       vs.length ≠ numAgents)) := by
  have hAR := countApprove_add_countReject_le vs
  unfold voteStatus
  by_cases hA : required ≤ countApprove vs
  · rw [if_pos hA]
    refine ⟨iff_of_true rfl hA, iff_of_false (by decide) ?_, iff_of_false (by decide) ?_⟩
    · rintro (h | ⟨hl, hA2⟩) <;> omega
    · rintro ⟨hA2, _, _⟩; omega
  · rw [if_neg hA]
    by_cases hC : ((numAgents : ℤ) - (required : ℤ) < (countReject vs : ℤ) ∨
        vs.length = numAgents)
    · rw [if_pos hC]
      refine ⟨iff_of_false (by decide) hA, iff_of_true rfl ?_, iff_of_false (by decide) ?_⟩
      · rcases hC with h | h
        · exact Or.inl h
        · exact Or.inr ⟨h, by omega⟩
      · rintro ⟨_, hR, hl⟩
        rcases hC with h | h
        · omega
        · exact hl h
    · rw [if_neg hC]
      push_neg at hC
      refine ⟨iff_of_false (by decide) hA, iff_of_false (by decide) ?_, iff_of_true rfl ?_⟩
      · rintro (h | ⟨hl, _⟩)
        · omega
        · exact hC.2 hl
      · exact ⟨by omega, hC.1, hC.2⟩

/-- C2: over one round of vote collection on a pending proposal with `N`
participants, threshold `T`, and a resulting vote list of at most `N`
votes, the new status is `"approved"` iff the APPROVE count reaches `T`;
it is `"rejected"` iff the REJECT count exceeds `N - T` (so approval is
mathematically impossible) or all `N` participants have voted without `T`
approvals; otherwise it stays `"pending"` for the next round. -/
theorem vote_round_threshold
    (agents : List String) (voteFn : String → TxData → String) (required : ℕ)
    (tx : Proposal) (hpend : tx.status = "pending")
    (hlen : (collectRoundVotes agents voteFn tx).length ≤ agents.length) :
    ((voteStep agents voteFn required tx).status = "approved" ↔
      required ≤ countApprove (collectRoundVotes agents voteFn tx)) ∧
    ((voteStep agents voteFn required tx).status = "rejected" ↔
      ((agents.length : ℤ) - (required : ℤ) <
        (countReject (collectRoundVotes agents voteFn tx) : ℤ) ∨
       ((collectRoundVotes agents voteFn tx).length = agents.length ∧
        countApprove (collectRoundVotes agents voteFn tx) < required))) ∧
    ((voteStep agents voteFn required tx).status = "pending" ↔
      (countApprove (collectRoundVotes agents voteFn tx) < required ∧
       (countReject (collectRoundVotes agents voteFn tx) : ℤ) ≤
         (agents.length : ℤ) - (required : ℤ) ∧
       (collectRoundVotes agents voteFn tx).length ≠ agents.length)) := by
  have hstep : (voteStep agents voteFn required tx).status =
      voteStatus agents.length required (collectRoundVotes agents voteFn tx) := by
    simp [voteStep, hpend]
  rw [hstep]
  exact voteStatus_characterization agents.length required _ hlen

/-- Witness for C2: three participants, threshold 2, a fresh pending
proposal; two APPROVE responses and one REJECT yield `"approved"`. -/
theorem vote_round_threshold_witness :
    (voteStep ["TrendMaster", "RiskGuardian", "StrategyArchitect"]
      (fun a _ => if a = "RiskGuardian" then "REJECT too risky" else "APPROVE sound trade")
      2 sampleProposal).status = "approved" :=
  (vote_round_threshold ["TrendMaster", "RiskGuardian", "StrategyArchitect"]
    (fun a _ => if a = "RiskGuardian" then "REJECT too risky" else "APPROVE sound trade")
    2 sampleProposal rfl (by decide)).1.mpr (by decide)

/-- A duplicate-free list of names keeps at most one element equal to any
given name under filtering. -/
theorem nodup_filter_eq_le_one (a : String) (l : List String) (h : l.Nodup) :
    (l.filter (fun x => x = a)).length ≤ 1 := by
  induction l with
  | nil => simp
  | cons x xs ih =>
    rw [List.nodup_cons] at h
    by_cases hx : x = a
    · subst hx
      have hnil : xs.filter (fun y => y = x) = [] := by
        apply List.filter_eq_nil_iff.mpr
        intro y hy
        simp only [decide_eq_true_eq]
        intro hyx
        exact h.1 (hyx ▸ hy)
      simp [List.filter_cons, hnil]
    · simp only [List.filter_cons, decide_eq_true_eq]
      rw [if_neg hx]
      exact ih h.2

/-- C4: with duplicate-free participant names, for every proposal and
participant at most one vote by that participant is ever present after a
voting round (given at most one before it), and when the participant has
already voted the round appends nothing for them: their recorded votes are
exactly the ones from before, the first vote standing unchanged. -/
theorem at_most_one_vote_per_participant
    (agents : List String) (voteFn : String → TxData → String) (required : ℕ)
    (tx : Proposal) (a : String)
    (hnodup : agents.Nodup)
    (hprev : (tx.votes.filter (fun v => v.agent = a)).length ≤ 1) :
    ((voteStep agents voteFn required tx).votes.filter (fun v => v.agent = a)).length ≤ 1 ∧
    (tx.votes.any (fun v => v.agent = a) = true →
      (voteStep agents voteFn required tx).votes.filter (fun v => v.agent = a) =
        tx.votes.filter (fun v => v.agent = a)) := by
  by_cases hst : tx.status = "pending"
  case neg =>
    constructor
    · simpa [voteStep, hst] using hprev
    · intro _
      simp [voteStep, hst]
  case pos =>
    have hv : (voteStep agents voteFn required tx).votes =
        tx.votes ++
          (agents.filter (fun x => !(tx.votes.any (fun v => v.agent = x)))).map
            (fun x => { agent := x, vote := voteFn x tx.transaction }) := by
      simp [voteStep, hst, collectRoundVotes]
    have hfm : ((agents.filter (fun x => !(tx.votes.any (fun v => v.agent = x)))).map
          (fun x => ({ agent := x, vote := voteFn x tx.transaction } : Vote))).filter
          (fun v => v.agent = a) =
        ((agents.filter (fun x => !(tx.votes.any (fun v => v.agent = x)))).filter
          (fun x => x = a)).map
          (fun x => ({ agent := x, vote := voteFn x tx.transaction } : Vote)) := by
      rw [List.filter_map]
      rfl
    rw [hv, List.filter_append, hfm]
    by_cases hvoted : tx.votes.any (fun v => v.agent = a) = true
    · have hnil : (agents.filter (fun x => !(tx.votes.any (fun v => v.agent = x)))).filter
          (fun x => x = a) = [] := by
        apply List.filter_eq_nil_iff.mpr
        intro x hx
        simp only [decide_eq_true_eq]
        intro hxa
        subst hxa
        have hmem := List.of_mem_filter hx
        simp [hvoted] at hmem
      rw [hnil]
      exact ⟨by simpa using hprev, fun _ => by simp⟩
    · have hold : tx.votes.filter (fun v => v.agent = a) = [] := by
        apply List.filter_eq_nil_iff.mpr
        intro v hv2
        simp only [decide_eq_true_eq]
        intro hva
        exact hvoted (List.any_eq_true.mpr ⟨v, hv2, by simp [hva]⟩)
      rw [hold]
      refine ⟨?_, fun h => absurd h hvoted⟩
      simp only [List.nil_append, List.length_map]
      exact nodup_filter_eq_le_one a _ (List.Nodup.filter _ hnodup)

/-- Witness for C4: participant A already voted on the concrete pending
proposal; after another round with two participants, A still has exactly
the one original vote. -/
theorem at_most_one_vote_per_participant_witness :
    ((voteStep ["A", "B"] (fun _ _ => "APPROVE again") 2
        { id := "tx_3", transaction := sampleTx,
          votes := [{ agent := "A", vote := "APPROVE first" }], status := "pending",
          tx_hash := none, error_message := none }).votes.filter
        (fun v => v.agent = "A")).length ≤ 1 ∧
    (voteStep ["A", "B"] (fun _ _ => "APPROVE again") 2
        { id := "tx_3", transaction := sampleTx,
          votes := [{ agent := "A", vote := "APPROVE first" }], status := "pending",
          tx_hash := none, error_message := none }).votes.filter
        (fun v => v.agent = "A") =
      [{ agent := "A", vote := "APPROVE first" }] := by
  have h := at_most_one_vote_per_participant ["A", "B"] (fun _ _ => "APPROVE again") 2
    { id := "tx_3", transaction := sampleTx,
      votes := [{ agent := "A", vote := "APPROVE first" }], status := "pending",
      tx_hash := none, error_message := none } "A" (by decide) (by decide)
  exact ⟨h.1, (h.2 (by decide)).trans (by decide)⟩

/-- Counterexample for C5: the legacy 3-token directive `"BUY -5 BTC"`
carries the parsable, strictly negative amount `-5`, yet `propose_trade`
creates a pending simulated proposal for it — the non-positive-amount
rejection is applied only on the 5-token path (the `<= 1e-18` guard),
not on the legacy BUY/SELL path, which refutes the claim that a
non-positive amount never becomes a Proposal in both forms. -/
theorem legacy_negative_amount_creates_proposal_cex :
    parseDecimal "-5" = some (-5) ∧ (-5 : ℚ) ≤ 0 ∧
    propose_trade parseDecimal [] "tx_5" "BUY -5 BTC" =
      [{ id := "tx_5", transaction := TxData.simulated "BUY" (-5) "BTC",
         votes := [], status := "pending", tx_hash := none, error_message := none }] := by
  refine ⟨rfl, by norm_num, rfl⟩

/-- C5 amended: `propose_trade` rejects, without raising and without
creating any proposal, every directive with a wrong token count (neither
5 tokens nor 3 tokens headed by BUY/SELL) and every directive whose
amount fails to parse; on the 5-token on-chain form it also rejects
amounts at or below `1e-18` (which covers all non-positive amounts); but
the legacy 3-token BUY/SELL form accepts every parsable amount — including
non-positive ones — and creates a pending simulated proposal for it. -/
theorem propose_trade_validation_amended (parseFloat : String → Option ℚ)
    (st : Ledger) (newId tradeDetails : String) :
    (∀ i o amt nw dx, pySplit tradeDetails = [i, o, amt, nw, dx] →
      (parseFloat amt = none ∨ ∃ q, parseFloat amt = some q ∧ q ≤ 1 / 10 ^ 18) →
      propose_trade parseFloat st newId tradeDetails = st) ∧
    (∀ a amt c, pySplit tradeDetails = [a, amt, c] →
      (pyUpper a = "BUY" ∨ pyUpper a = "SELL") → parseFloat amt = none →
      propose_trade parseFloat st newId tradeDetails = st) ∧
    (∀ a amt c q, pySplit tradeDetails = [a, amt, c] →
      (pyUpper a = "BUY" ∨ pyUpper a = "SELL") → parseFloat amt = some q →
      propose_trade parseFloat st newId tradeDetails =
        propose_transaction st newId (TxData.simulated (pyUpper a) q (pyUpper c))) ∧
    ((pySplit tradeDetails).length ≠ 5 →
      (∀ a amt c, pySplit tradeDetails = [a, amt, c] →
        ¬(pyUpper a = "BUY" ∨ pyUpper a = "SELL")) →
      propose_trade parseFloat st newId tradeDetails = st) := by
  refine ⟨?_, ?_, ?_, ?_⟩
  · intro i o amt nw dx hsplit hbad
    unfold propose_trade
    rw [hsplit]
    rcases hbad with h | ⟨q, hq, hle⟩
    · simp [h]
    · simp only [hq]
      rw [if_pos hle]
  · intro a amt c hsplit hbs hnone
    unfold propose_trade
    rw [hsplit]
    simp [hbs, hnone]
  · intro a amt c q hsplit hbs hsome
    unfold propose_trade
    rw [hsplit]
    simp [hbs, hsome]
  · intro hlen h3
    unfold propose_trade
    rcases hsp : pySplit tradeDetails with _ | ⟨t1, _ | ⟨t2, _ | ⟨t3, _ | ⟨t4, _ | ⟨t5, rest⟩⟩⟩⟩⟩
    · rfl
    · rfl
    · rfl
    · have := h3 t1 t2 t3 hsp
      simp [this]
    · rfl
    · rcases rest with _ | ⟨t6, rest2⟩
      · exact absurd (by rw [hsp]; rfl) hlen
      · rfl

/-- Witness for C5 (amended): a legacy directive with an unparsable amount
is dropped without creating a proposal. -/
theorem propose_trade_validation_amended_witness :
    propose_trade parseDecimal [] "tx_6" "BUY abc BTC" = [] :=
  (propose_trade_validation_amended parseDecimal [] "tx_6" "BUY abc BTC").2.1
    "BUY" "abc" "BTC" (by decide) (Or.inl (by decide)) (by decide)
